import Mathlib

/-!
Verification development for the `jupyter-js-plugins` extension modules
(`src/notebook/plugin.ts`, `src/editorhandler/plugin.ts`,
`src/imagehandler/plugin.ts`).

The one piece of original logic is the active-panel tracking: the
`ActiveNotebook` class in `src/notebook/plugin.ts` (a widget list, an
active-widget reference, a change signal, a DOM focus follower and a
disposal handler) and the parallel console tracker in
`src/editorhandler/plugin.ts` (module-private `widgets` / `activeWidget`
with the same focus-follower loop and a disposal handler that clears the
active reference directly).

Panels are modelled by an identity (`pid`), which stands for JavaScript
reference identity (`===`).  A focus event is modelled by the three
per-widget observations the loop makes: `isAttached`, `isVisible` and
`node.contains(event.target)`.  Signal emissions are returned explicitly
as a list of emitted values.
-/

/-- A panel handle; `pid` models JavaScript reference identity. -/
structure Panel where
  pid : Nat
deriving DecidableEq

/-- The per-widget observations made by a focus-follower loop for one
focus event: `widget.isAttached`, `widget.isVisible`, and
`widget.node.contains(event.target)`. -/
structure FocusEnv where
  isAttached : Panel → Bool
  isVisible : Panel → Bool
  containsTarget : Panel → Bool

/-- The test made by the focus-follower loop body:
`widget.isAttached && widget.isVisible && widget.node.contains(target)`. -/
def focusMatch (env : FocusEnv) (w : Panel) : Bool :=
  env.isAttached w && env.isVisible w && env.containsTarget w

/-- The focus-follower loop's search: first widget (in list order)
passing `focusMatch`, or `none` when the loop falls through. -/
def firstMatch (env : FocusEnv) : List Panel → Option Panel
  | [] => none
  | w :: ws => if focusMatch env w then some w else firstMatch env ws

/-- JavaScript `Array.prototype.indexOf`: index of the first occurrence,
or `-1` when absent. -/
def jsIndexOf : List Panel → Panel → Int
  | [], _ => -1
  | w :: ws, x =>
    if w = x then 0
    else
      let r := jsIndexOf ws x
      if r = -1 then -1 else r + 1

/-- JavaScript `Array.prototype.splice(start, 1)`: a negative `start`
counts from the end (clamped at 0), a `start` past the end removes
nothing; otherwise the element at `start` is removed. -/
def jsSpliceOne (ws : List Panel) (start : Int) : List Panel :=
  let len : Int := ws.length
  let s : Int := if start < 0 then max (len + start) 0 else min start len
  ws.take s.toNat ++ ws.drop (s.toNat + 1)

namespace ActiveNotebook

/-- The mutable state of the `ActiveNotebook` tracker:
`_widgets : NotebookPanel[]` and `_activeWidget : NotebookPanel`
(`none` models the JavaScript `null`). -/
structure State where
  widgets : List Panel
  activeWidget : Option Panel
deriving DecidableEq

/-- The field initializers: `_activeWidget = null`, `_widgets = []`. -/
def initState : State :=
  { widgets := [], activeWidget := none }

/-- The getter `get activeNotebook()`: returns `_activeWidget`. -/
def activeNotebook (st : State) : Option Panel :=
  st.activeWidget

/-- The setter `set activeNotebook(widget)` of `ActiveNotebook`
(src/notebook/plugin.ts lines 122-142).  Returns the new state together
with the list of values emitted on `activeNotebookChanged`.  Guards in
source order: (1) `this._activeWidget === widget` returns; (2) a widget
already in `this._widgets` becomes active and is emitted; (3) `widget
=== null` returns (a `null` can never be in `_widgets`, so for `none`
guard (2) always falls through to this); (4) otherwise the widget is
pushed and its `disposed` signal is connected (the connected callback is
the separate `handleDisposed` step below). -/
def setActiveNotebook (st : State) (widget : Option Panel) : State × List Panel :=
  if st.activeWidget = widget then (st, [])
  else
    match widget with
    | some w =>
      if w ∈ st.widgets then ({ st with activeWidget := some w }, [w])
      else ({ st with widgets := st.widgets ++ [w] }, [])
    | none => (st, [])

/-- The callback connected to `widget.disposed` inside the setter:
`splice(indexOf(widget), 1)` on `_widgets`, then, if the widget was the
active one, `this.activeNotebook = null` (a call of the setter). -/
def handleDisposed (st : State) (w : Panel) : State × List Panel :=
  let ws := jsSpliceOne st.widgets (jsIndexOf st.widgets w)
  let st' := { st with widgets := ws }
  if st'.activeWidget = some w then setActiveNotebook st' none else (st', [])

/-- The capturing `focus` listener installed by the constructor
(src/notebook/plugin.ts lines 96-106): scan `_widgets` in order; on the
first attached, visible widget whose node contains the target, assign
`this.activeNotebook = widget` and return; otherwise do nothing. -/
def handleFocus (env : FocusEnv) (st : State) : State × List Panel :=
  match firstMatch env st.widgets with
  | some w => setActiveNotebook st (some w)
  | none => (st, [])

end ActiveNotebook

namespace ConsolePlugin

/-- The module-private console tracker state of
`src/editorhandler/plugin.ts`: `Private.widgets : ConsolePanel[]` and
`Private.activeWidget : ConsolePanel` (`none` models `null`). -/
structure State where
  widgets : List Panel
  activeWidget : Option Panel
deriving DecidableEq

/-- The initializers: `widgets = []`, `activeWidget = null`. -/
def initState : State :=
  { widgets := [], activeWidget := none }

/-- The callback connected to `console.disposed`
(src/editorhandler/plugin.ts lines 98-104): `splice(indexOf(console),
1)` on `Private.widgets`, then, if the console was the active widget,
assign `Private.activeWidget = null` directly. -/
def handleDisposed (st : State) (w : Panel) : State :=
  let ws := jsSpliceOne st.widgets (jsIndexOf st.widgets w)
  { widgets := ws
    activeWidget := if st.activeWidget = some w then none else st.activeWidget }

/-- The capturing `focus` listener (src/editorhandler/plugin.ts lines
116-126): scan `Private.widgets` in order; on the first attached,
visible widget whose node contains the target, assign
`Private.activeWidget = widget` and return; otherwise do nothing. -/
def handleFocus (env : FocusEnv) (st : State) : State :=
  match firstMatch env st.widgets with
  | some w => { st with activeWidget := some w }
  | none => st

end ConsolePlugin

/-- The external library calls a command handler can make (the handlers
delegate to `NotebookActions` / the panel; they never touch the tracker
state, so each handler is a pure function from tracker state to the
list of external calls it performs). -/
inductive ExtAction where
  | runCells (w : Panel)
  | restartKernel (w : Panel)
  | cutCells (w : Panel)
  | copyCells (w : Panel)
  | pasteCells (w : Panel)
  | consoleClear (w : Panel)
  | consoleExecute (w : Panel)
deriving DecidableEq

/-- The `notebook-cells:run` handler: `if (tracker.activeNotebook) {
NotebookActions.run(...) }` — a `null` active notebook is falsy, so
nothing happens. -/
def runHandler (st : ActiveNotebook.State) : List ExtAction :=
  match ActiveNotebook.activeNotebook st with
  | some w => [ExtAction.runCells w]
  | none => []

/-- The `notebook:restart-kernel` handler. -/
def restartHandler (st : ActiveNotebook.State) : List ExtAction :=
  match ActiveNotebook.activeNotebook st with
  | some w => [ExtAction.restartKernel w]
  | none => []

/-- The `notebook-cells:cut` handler. -/
def cutHandler (st : ActiveNotebook.State) : List ExtAction :=
  match ActiveNotebook.activeNotebook st with
  | some w => [ExtAction.cutCells w]
  | none => []

/-- The `notebook-cells:copy` handler. -/
def copyHandler (st : ActiveNotebook.State) : List ExtAction :=
  match ActiveNotebook.activeNotebook st with
  | some w => [ExtAction.copyCells w]
  | none => []

/-- The `notebook-cells:paste` handler. -/
def pasteHandler (st : ActiveNotebook.State) : List ExtAction :=
  match ActiveNotebook.activeNotebook st with
  | some w => [ExtAction.pasteCells w]
  | none => []

/-- The `console:clear` handler: `if (Private.activeWidget) {
Private.activeWidget.content.clear() }`. -/
def consoleClearHandler (st : ConsolePlugin.State) : List ExtAction :=
  match st.activeWidget with
  | some w => [ExtAction.consoleClear w]
  | none => []

/-- The `console:execute` handler. -/
def consoleExecuteHandler (st : ConsolePlugin.State) : List ExtAction :=
  match st.activeWidget with
  | some w => [ExtAction.consoleExecute w]
  | none => []

/-- A sequence of registration calls: each call assigns
`tracker.activeNotebook = p` (the path `TrackingNotebookWidgetFactory.createNew`
uses, and the implicit-registration path of the setter). -/
def runSetActiveCalls (st : ActiveNotebook.State) (calls : List Panel) : ActiveNotebook.State :=
  calls.foldl (fun s p => (ActiveNotebook.setActiveNotebook s (some p)).1) st

/-- The specification's description of the tracked list after a sequence
of registration calls: "exactly the registered handles in registration
order, with no duplicates even if the same handle is registered twice"
— i.e. the calls with every later duplicate dropped. -/
def specRegistrationOrder (calls : List Panel) : List Panel :=
  calls.foldl (fun acc p => if p ∈ acc then acc else acc ++ [p]) []

/-- One kernelspec as enumerated from `specs.kernelspecs`: the object
key `kernelName` and `spec.display_name`.  A list models the object's
key-enumeration order. -/
structure KernelSpec where
  kernelName : String
  displayName : String
deriving DecidableEq

/-- JavaScript object assignment `m[k] = v` on a string-keyed object:
an existing key keeps its position and gets the new value; a new key is
appended. -/
def objSet : List (String × String) → String → String → List (String × String)
  | [], k, v => [(k, v)]
  | (k', v') :: m, k, v =>
    if k' = k then (k, v) :: m else (k', v') :: objSet m k v

/-- JavaScript property read `m[k]` on a string-keyed object. -/
def objGet : List (String × String) → String → Option String
  | [], _ => none
  | (k', v') :: m, k => if k' = k then some v' else objGet m k

/-- JavaScript `Object.keys(m)` (insertion order of keys). -/
def objKeys (m : List (String × String)) : List String :=
  m.map Prod.fst

/-- The `displayNameMap` built by both plugins: for each enumerated
kernelspec, `displayNameMap[displayName] = kernelName` (later entries
overwrite earlier ones sharing a display name). -/
def buildDisplayNameMap (specs : List KernelSpec) : List (String × String) :=
  specs.foldl (fun m ks => objSet m ks.displayName ks.kernelName) []

/-- `Object.keys(displayNameMap).sort((a, b) => a.localeCompare(b))`;
`localeCompare` is modelled by the lexicographic order on strings. -/
def sortedDisplayNames (specs : List KernelSpec) : List String :=
  List.insertionSort (fun a b : String => a ≤ b) (objKeys (buildDisplayNameMap specs))

/-- One entry passed to `registry.registerCreator` by
`activateNotebookHandler`. -/
structure FileCreator where
  name : String
  extension : String
  fileType : String
  kernelName : String
deriving DecidableEq

/-- The `registerCreator` loop of `activateNotebookHandler`
(src/notebook/plugin.ts lines 205-212): one creator per sorted display
name, with `kernelName: displayNameMap[displayName]`. -/
def buildNotebookCreators (specs : List KernelSpec) : List FileCreator :=
  (sortedDisplayNames specs).map fun dn =>
    { name := dn ++ " Notebook"
      extension := ".ipynb"
      fileType := "notebook"
      kernelName := (objGet (buildDisplayNameMap specs) dn).getD "" }

/-- The console-create command ids registered by `activateConsole`
(src/editorhandler/plugin.ts lines 87-113): one command
`console:create-${displayNameMap[displayName]}` per sorted display
name. -/
def buildConsoleCommandIds (specs : List KernelSpec) : List String :=
  (sortedDisplayNames specs).map fun dn =>
    "console:create-" ++ (objGet (buildDisplayNameMap specs) dn).getD ""

/-- The kernel name enumerated last among the kernelspecs carrying a
given display name (what "the map overwrites earlier entries" should
leave behind), stated independently of the map data structure. -/
def lastEnumeratedKernel (specs : List KernelSpec) (d : String) : Option String :=
  specs.foldl (fun acc ks => if ks.displayName = d then some ks.kernelName else acc) none

/-- Concrete panels used in concrete evaluations. -/
def p1 : Panel := ⟨1⟩

def p2 : Panel := ⟨2⟩

def p3 : Panel := ⟨3⟩

/-- A focus event seeing every panel attached, visible and containing
the target (two overlapping visible panels both match). -/
def focusEnvAll : FocusEnv :=
  ⟨fun _ => true, fun _ => true, fun _ => true⟩

/-- A focus event whose target is contained in no panel's node. -/
def focusEnvNone : FocusEnv :=
  ⟨fun _ => true, fun _ => true, fun _ => false⟩

/-- Helper: the setter on a widget already in `_widgets` always leaves
that widget active (either guard (1) fires with it already active, or
guard (2) assigns it). -/
theorem setActive_mem_sets_active (st : ActiveNotebook.State) (w : Panel)
    (hmem : w ∈ st.widgets) :
    (ActiveNotebook.setActiveNotebook st (some w)).1.activeWidget = some w := by
  by_cases h : st.activeWidget = some w
  · simp [ActiveNotebook.setActiveNotebook, h]
  · simp [ActiveNotebook.setActiveNotebook, h, hmem]

/-- Helper: `firstMatch` returns the head of the first matching suffix
when everything before it fails the test. -/
theorem firstMatch_append_first (env : FocusEnv) (A : Panel) (pre rest : List Panel)
    (hpre : ∀ w ∈ pre, focusMatch env w = false) (hA : focusMatch env A = true) :
    firstMatch env (pre ++ A :: rest) = some A := by
  induction pre with
  | nil => simp [firstMatch, hA]
  | cons x xs ih =>
    have hx := hpre x (List.mem_cons_self x xs)
    simp only [List.cons_append, firstMatch, hx, Bool.false_eq_true, if_false]
    exact ih fun w hw => hpre w (List.mem_cons_of_mem x hw)

/-- Helper: `firstMatch` is `none` when no widget matches. -/
theorem firstMatch_eq_none (env : FocusEnv) (ws : List Panel)
    (h : ∀ w ∈ ws, focusMatch env w = false) : firstMatch env ws = none := by
  induction ws with
  | nil => rfl
  | cons x xs ih =>
    have hx := h x (List.mem_cons_self x xs)
    simp only [firstMatch, hx, Bool.false_eq_true, if_false]
    exact ih fun w hw => h w (List.mem_cons_of_mem x hw)

/-- C1 counterexample: starting from the initial tracker state, the
setter call `activeNotebook = p1` (p1 non-null and untracked) pushes
`p1` onto `_widgets` but leaves `_activeWidget` unset and emits
nothing — contradicting the claim that `p1` becomes active and exactly
one notification with value `p1` fires. -/
theorem setActive_untracked_no_activation_cex :
    (ActiveNotebook.setActiveNotebook ActiveNotebook.initState (some p1)).1.widgets = [p1]
    ∧ (ActiveNotebook.setActiveNotebook ActiveNotebook.initState (some p1)).1.activeWidget
        ≠ some p1
    ∧ (ActiveNotebook.setActiveNotebook ActiveNotebook.initState (some p1)).2 = [] := by
  decide

/-- C1 (amended): for every tracker state and every non-null panel `p`
that is neither tracked nor the current active reference, the setter
appends `p` to the tracked list, subscribes its disposal handler, and
leaves the active panel unchanged, firing no change notification. -/
theorem setActive_untracked_registers_only (st : ActiveNotebook.State) (p : Panel)
    (hmem : p ∉ st.widgets) (hact : st.activeWidget ≠ some p) :
    ActiveNotebook.setActiveNotebook st (some p)
      = ({ st with widgets := st.widgets ++ [p] }, []) := by
  simp [ActiveNotebook.setActiveNotebook, hact, hmem]

/-- C1 witness: the amended statement at the initial state and `p2`. -/
theorem setActive_untracked_registers_only_witness :
    p2 ∉ ActiveNotebook.initState.widgets
    ∧ ActiveNotebook.setActiveNotebook ActiveNotebook.initState (some p2)
        = ({ ActiveNotebook.initState with
              widgets := ActiveNotebook.initState.widgets ++ [p2] }, []) :=
  ⟨by decide, setActive_untracked_registers_only ActiveNotebook.initState p2
    (by decide) (by decide)⟩

/-- C2: evaluating the disposal callback at a reachable failing input.
With `_widgets = [p1]` and `_activeWidget = p1` (reached by registering
then activating `p1`), firing `p1`'s `disposed` handler removes `p1`
from `_widgets` but leaves `_activeWidget = p1`: the attempted clearing
`this.activeNotebook = null` hits the setter's `widget === null` guard
(after the membership test fails, `null` never being in `_widgets`) and
returns without clearing — the claim says `active()` becomes none. -/
theorem dispose_active_leaves_stale_active :
    ActiveNotebook.handleDisposed { widgets := [p1], activeWidget := some p1 } p1
      = ({ widgets := [], activeWidget := some p1 }, []) := by
  decide

/-- C3: a reachable state violating the membership invariant.  The
event sequence setActive(p1) (registers), setActive(p1) (activates),
dispose(p1) leaves `_activeWidget = p1` while `_widgets = []`, so the
active panel is a disposed, already-removed panel — the claim says the
active panel, if set, is always a member of the tracked list. -/
theorem stale_active_reachable_breaks_invariant :
    ((ActiveNotebook.handleDisposed
        (ActiveNotebook.setActiveNotebook
          (ActiveNotebook.setActiveNotebook ActiveNotebook.initState (some p1)).1
          (some p1)).1 p1).1.activeWidget = some p1)
    ∧ p1 ∉ (ActiveNotebook.handleDisposed
        (ActiveNotebook.setActiveNotebook
          (ActiveNotebook.setActiveNotebook ActiveNotebook.initState (some p1)).1
          (some p1)).1 p1).1.widgets := by
  decide

/-- C4: evaluating `activeNotebook = null` at a state with an active
panel.  With `_widgets = [p1]` and `_activeWidget = p1`, the call is a
complete no-op: the identity guard fails (`p1 !== null`), the
membership test fails (`null` is never in `_widgets`), and the
`widget === null` guard returns — the active reference is NOT cleared
(the claim says it is cleared to none).  No notification fires. -/
theorem setActive_null_never_clears :
    ActiveNotebook.setActiveNotebook { widgets := [p1], activeWidget := some p1 } none
      = ({ widgets := [p1], activeWidget := some p1 }, []) := by
  decide

/-- C5: first match wins.  For any focus event and any tracked list of
the form `pre ++ A :: mid ++ B :: post` where nothing in `pre` matches,
`A` matches (attached, visible, containing the target) and `B` also
matches (overlap), both focus followers (notebook tracker and console
tracker) activate `A` and never `B`. -/
theorem focus_first_match_wins
    (env : FocusEnv) (A B : Panel) (pre mid post : List Panel)
    (st : ActiveNotebook.State) (cst : ConsolePlugin.State)
    (hnw : st.widgets = pre ++ A :: (mid ++ B :: post))
    (hcw : cst.widgets = pre ++ A :: (mid ++ B :: post))
    (hpre : ∀ w ∈ pre, focusMatch env w = false)
    (hA : focusMatch env A = true)
    (_hB : focusMatch env B = true)
    (hAB : A ≠ B) :
    ((ActiveNotebook.handleFocus env st).1.activeWidget = some A
      ∧ (ActiveNotebook.handleFocus env st).1.activeWidget ≠ some B)
    ∧ (ConsolePlugin.handleFocus env cst).activeWidget = some A
      ∧ (ConsolePlugin.handleFocus env cst).activeWidget ≠ some B := by
  have hfm : firstMatch env st.widgets = some A := by
    rw [hnw]; exact firstMatch_append_first env A pre _ hpre hA
  have hfmc : firstMatch env cst.widgets = some A := by
    rw [hcw]; exact firstMatch_append_first env A pre _ hpre hA
  have hmem : A ∈ st.widgets := by rw [hnw]; simp
  have h1 : (ActiveNotebook.handleFocus env st).1.activeWidget = some A := by
    unfold ActiveNotebook.handleFocus
    rw [hfm]
    exact setActive_mem_sets_active st A hmem
  have h2 : (ConsolePlugin.handleFocus env cst).activeWidget = some A := by
    unfold ConsolePlugin.handleFocus
    rw [hfmc]
  refine ⟨⟨h1, ?_⟩, h2, ?_⟩
  · rw [h1]
    simp only [ne_eq, Option.some.injEq]
    exact hAB
  · rw [h2]
    simp only [ne_eq, Option.some.injEq]
    exact hAB

/-- C5 witness: two overlapping, attached, visible panels `p1`
(registered first) and `p2`; a focus target in the overlap resolves to
`p1` in both trackers. -/
theorem focus_first_match_wins_witness :
    ((ActiveNotebook.handleFocus focusEnvAll ⟨[p1, p2], none⟩).1.activeWidget = some p1
      ∧ (ActiveNotebook.handleFocus focusEnvAll ⟨[p1, p2], none⟩).1.activeWidget ≠ some p2)
    ∧ (ConsolePlugin.handleFocus focusEnvAll ⟨[p1, p2], none⟩).activeWidget = some p1
      ∧ (ConsolePlugin.handleFocus focusEnvAll ⟨[p1, p2], none⟩).activeWidget ≠ some p2 :=
  focus_first_match_wins focusEnvAll p1 p2 [] [] [] ⟨[p1, p2], none⟩ ⟨[p1, p2], none⟩
    rfl rfl (by simp) rfl rfl (by decide)

/-- C6: a focus event matched by no tracked panel (target outside every
region, or all containing panels detached/invisible) leaves both
trackers' states unchanged and emits no notification. -/
theorem focus_no_match_noop
    (env : FocusEnv) (st : ActiveNotebook.State) (cst : ConsolePlugin.State)
    (h1 : ∀ w ∈ st.widgets, focusMatch env w = false)
    (h2 : ∀ w ∈ cst.widgets, focusMatch env w = false) :
    ActiveNotebook.handleFocus env st = (st, [])
    ∧ ConsolePlugin.handleFocus env cst = cst := by
  constructor
  · unfold ActiveNotebook.handleFocus
    rw [firstMatch_eq_none env st.widgets h1]
  · unfold ConsolePlugin.handleFocus
    rw [firstMatch_eq_none env cst.widgets h2]

/-- C6 witness: a focus event contained in no panel leaves a tracker
with an active panel, and one without, untouched. -/
theorem focus_no_match_noop_witness :
    ActiveNotebook.handleFocus focusEnvNone ⟨[p1], some p1⟩ = (⟨[p1], some p1⟩, [])
    ∧ ConsolePlugin.handleFocus focusEnvNone ⟨[p1], none⟩ = ⟨[p1], none⟩ :=
  focus_no_match_noop focusEnvNone ⟨[p1], some p1⟩ ⟨[p1], none⟩ (by decide) (by decide)

/-- C7: setting the already-active panel is a no-op — the identity
guard returns before any state change or emission. -/
theorem setActive_current_noop (st : ActiveNotebook.State) (p : Panel)
    (h : st.activeWidget = some p) :
    ActiveNotebook.setActiveNotebook st (some p) = (st, []) := by
  simp [ActiveNotebook.setActiveNotebook, h]

/-- C7 witness: re-activating the active panel of a one-panel tracker
changes nothing and emits nothing. -/
theorem setActive_current_noop_witness :
    ActiveNotebook.setActiveNotebook { widgets := [p1], activeWidget := some p1 } (some p1)
      = ({ widgets := [p1], activeWidget := some p1 }, []) :=
  setActive_current_noop { widgets := [p1], activeWidget := some p1 } p1 (by decide)

/-- C9: every command handler that consults the active panel performs
no external action when it is none (and, being a pure function of the
tracker state, changes no state). -/
theorem handlers_noop_without_active
    (st : ActiveNotebook.State) (cst : ConsolePlugin.State)
    (h1 : ActiveNotebook.activeNotebook st = none) (h2 : cst.activeWidget = none) :
    runHandler st = [] ∧ restartHandler st = [] ∧ cutHandler st = []
    ∧ copyHandler st = [] ∧ pasteHandler st = []
    ∧ consoleClearHandler cst = [] ∧ consoleExecuteHandler cst = [] := by
  simp [runHandler, restartHandler, cutHandler, copyHandler, pasteHandler,
    consoleClearHandler, consoleExecuteHandler, h1, h2]

/-- C9 witness: all guarded handlers do nothing at the initial states. -/
theorem handlers_noop_without_active_witness :
    runHandler ActiveNotebook.initState = []
    ∧ restartHandler ActiveNotebook.initState = []
    ∧ cutHandler ActiveNotebook.initState = []
    ∧ copyHandler ActiveNotebook.initState = []
    ∧ pasteHandler ActiveNotebook.initState = []
    ∧ consoleClearHandler ConsolePlugin.initState = []
    ∧ consoleExecuteHandler ConsolePlugin.initState = [] :=
  handlers_noop_without_active ActiveNotebook.initState ConsolePlugin.initState rfl rfl

/-- Helper: one registration call either leaves the tracked list alone
(when the panel is already tracked — including when it is the active
panel, which the membership invariant keeps inside the list) or appends
the panel; and the membership invariant is preserved. -/
theorem setActive_widgets_step (st : ActiveNotebook.State) (p : Panel)
    (hinv : ∀ a, st.activeWidget = some a → a ∈ st.widgets) :
    (ActiveNotebook.setActiveNotebook st (some p)).1.widgets
      = (if p ∈ st.widgets then st.widgets else st.widgets ++ [p])
    ∧ ∀ a, (ActiveNotebook.setActiveNotebook st (some p)).1.activeWidget = some a
        → a ∈ (ActiveNotebook.setActiveNotebook st (some p)).1.widgets := by
  by_cases h : st.activeWidget = some p
  · have hp : p ∈ st.widgets := hinv p h
    simp only [ActiveNotebook.setActiveNotebook, if_pos h]
    exact ⟨(if_pos hp).symm, hinv⟩
  · by_cases hm : p ∈ st.widgets
    · simp only [ActiveNotebook.setActiveNotebook, if_neg h, if_pos hm]
      refine ⟨trivial, ?_⟩
      intro a ha
      cases ha
      exact hm
    · simp only [ActiveNotebook.setActiveNotebook, if_neg h, if_neg hm]
      refine ⟨trivial, ?_⟩
      intro a ha
      exact List.mem_append_left _ (hinv a ha)

/-- Helper: over any sequence of registration calls the tracked list
evolves as a fold of "append if absent", provided the active reference
starts inside the list (or unset). -/
theorem runSetActiveCalls_widgets (calls : List Panel) :
    ∀ st : ActiveNotebook.State,
      (∀ a, st.activeWidget = some a → a ∈ st.widgets) →
      (runSetActiveCalls st calls).widgets
        = calls.foldl (fun acc q => if q ∈ acc then acc else acc ++ [q]) st.widgets := by
  induction calls with
  | nil => intro st _; rfl
  | cons p rest ih =>
    intro st hinv
    have step := setActive_widgets_step st p hinv
    show (runSetActiveCalls (ActiveNotebook.setActiveNotebook st (some p)).1 rest).widgets = _
    rw [ih _ step.2, step.1]
    rfl

/-- Helper: the "append if absent" fold preserves `Nodup`. -/
theorem dedupFold_nodup (calls : List Panel) :
    ∀ acc : List Panel, acc.Nodup →
      (calls.foldl (fun acc q => if q ∈ acc then acc else acc ++ [q]) acc).Nodup := by
  induction calls with
  | nil => intro acc h; exact h
  | cons p rest ih =>
    intro acc h
    simp only [List.foldl_cons]
    by_cases hm : p ∈ acc
    · rw [if_pos hm]; exact ih acc h
    · rw [if_neg hm]
      refine ih _ ?_
      simp [List.nodup_append, h, hm]

/-- C8: for every sequence of registration calls (the
`TrackingNotebookWidgetFactory.createNew` path, i.e. assignments to
`activeNotebook`), the tracked list is exactly the registered handles
in registration order with later duplicates dropped, and contains no
duplicates. -/
theorem registration_order_nodup (calls : List Panel) :
    (runSetActiveCalls ActiveNotebook.initState calls).widgets = specRegistrationOrder calls
    ∧ (runSetActiveCalls ActiveNotebook.initState calls).widgets.Nodup := by
  have hinv : ∀ a, ActiveNotebook.initState.activeWidget = some a
      → a ∈ ActiveNotebook.initState.widgets := by
    intro a ha
    exact absurd ha (by simp [ActiveNotebook.initState])
  have h := runSetActiveCalls_widgets calls ActiveNotebook.initState hinv
  refine ⟨h, ?_⟩
  rw [h]
  exact dedupFold_nodup calls [] List.nodup_nil

/-- Helper: reading a key after a JavaScript object assignment. -/
theorem objGet_objSet (m : List (String × String)) (k v x : String) :
    objGet (objSet m k v) x = if k = x then some v else objGet m x := by
  induction m with
  | nil =>
    simp only [objSet, objGet]
  | cons kv m ih =>
    obtain ⟨k', v'⟩ := kv
    by_cases h : k' = k
    · subst h
      by_cases hx : k' = x
      · subst hx
        simp [objSet, objGet]
      · simp [objSet, objGet, hx]
    · by_cases h1 : k' = x
      · subst h1
        have h2 : ¬k = k' := fun hc => h hc.symm
        simp [objSet, objGet, h, h2]
      · simp only [objSet, if_neg h, objGet, if_neg h1]
        exact ih

/-- Helper: the keys after a JavaScript object assignment — existing
keys keep their position, a new key is appended. -/
theorem objKeys_objSet (m : List (String × String)) (k v : String) :
    objKeys (objSet m k v)
      = if k ∈ objKeys m then objKeys m else objKeys m ++ [k] := by
  induction m with
  | nil => simp [objSet, objKeys]
  | cons kv m ih =>
    obtain ⟨k', v'⟩ := kv
    by_cases h : k' = k
    · subst h
      simp [objSet, objKeys]
    · have h2 : ¬k = k' := fun hc => h hc.symm
      have ih2 := ih
      simp only [objKeys] at ih2
      simp only [objSet, if_neg h, objKeys, List.map_cons, List.mem_cons, h2,
        false_or]
      rw [ih2]
      by_cases hm : k ∈ List.map Prod.fst m
      · simp [hm]
      · simp [hm]

/-- Helper: membership in the keys after an assignment. -/
theorem mem_objKeys_objSet (m : List (String × String)) (k v x : String) :
    x ∈ objKeys (objSet m k v) ↔ x ∈ objKeys m ∨ x = k := by
  rw [objKeys_objSet]
  by_cases hm : k ∈ objKeys m
  · rw [if_pos hm]
    constructor
    · exact Or.inl
    · rintro (h | rfl)
      · exact h
      · exact hm
  · rw [if_neg hm]
    simp [List.mem_append]

/-- Helper: looking a display name up in the map built by the
`displayNameMap` fold gives the kernel name of the last enumerated
kernelspec carrying it (falling back to the starting map). -/
theorem objGet_displayNameFold (specs : List KernelSpec) :
    ∀ (m : List (String × String)) (d : String),
      objGet (specs.foldl (fun m ks => objSet m ks.displayName ks.kernelName) m) d
        = specs.foldl
            (fun acc ks => if ks.displayName = d then some ks.kernelName else acc)
            (objGet m d) := by
  induction specs with
  | nil => intro m d; rfl
  | cons ks rest ih =>
    intro m d
    simp only [List.foldl_cons]
    rw [ih, objGet_objSet]

/-- Helper: membership in the keys of the `displayNameMap` fold. -/
theorem mem_objKeys_displayNameFold (specs : List KernelSpec) :
    ∀ (m : List (String × String)) (x : String),
      (x ∈ objKeys (specs.foldl (fun m ks => objSet m ks.displayName ks.kernelName) m)
        ↔ x ∈ objKeys m ∨ ∃ ks ∈ specs, ks.displayName = x) := by
  induction specs with
  | nil => intro m x; simp
  | cons ks rest ih =>
    intro m x
    simp only [List.foldl_cons]
    rw [ih, mem_objKeys_objSet]
    constructor
    · rintro ((h | h) | ⟨k, hk, he⟩)
      · exact Or.inl h
      · exact Or.inr ⟨ks, List.mem_cons_self ks rest, h.symm⟩
      · exact Or.inr ⟨k, List.mem_cons_of_mem ks hk, he⟩
    · rintro (h | ⟨k, hk, he⟩)
      · exact Or.inl (Or.inl h)
      · rcases List.mem_cons.mp hk with rfl | hk2
        · exact Or.inl (Or.inr he.symm)
        · exact Or.inr ⟨k, hk2, he⟩

/-- Helper: the `displayNameMap` fold keeps the keys duplicate-free. -/
theorem nodup_objKeys_displayNameFold (specs : List KernelSpec) :
    ∀ m : List (String × String), (objKeys m).Nodup →
      (objKeys (specs.foldl (fun m ks => objSet m ks.displayName ks.kernelName) m)).Nodup := by
  induction specs with
  | nil => intro m h; exact h
  | cons ks rest ih =>
    intro m h
    simp only [List.foldl_cons]
    apply ih
    rw [objKeys_objSet]
    by_cases hm : ks.displayName ∈ objKeys m
    · rw [if_pos hm]; exact h
    · rw [if_neg hm]
      simp [List.nodup_append, h, hm]

/-- C10: the launch entries built from a kernelspec collection.  The
sorted display-name list driving both the notebook `registerCreator`
loop and the console `console:create-` command loop has no duplicate
display names, is sorted ascending (`localeCompare` modelled by the
lexicographic string order), and mentions exactly the display names
occurring in the kernelspecs; the map sends each display name to the
kernel name enumerated last with that display name (later entries
overwrite earlier ones); and each launch entry is built from its
display name and that last kernel name. -/
theorem launch_entries_from_kernelspecs (specs : List KernelSpec) :
    (sortedDisplayNames specs).Nodup
    ∧ List.Sorted (fun a b : String => a ≤ b) (sortedDisplayNames specs)
    ∧ (∀ d, d ∈ sortedDisplayNames specs ↔ ∃ ks ∈ specs, ks.displayName = d)
    ∧ (∀ d, objGet (buildDisplayNameMap specs) d = lastEnumeratedKernel specs d)
    ∧ buildNotebookCreators specs
        = (sortedDisplayNames specs).map (fun dn =>
            { name := dn ++ " Notebook"
              extension := ".ipynb"
              fileType := "notebook"
              kernelName := (lastEnumeratedKernel specs dn).getD "" })
    ∧ buildConsoleCommandIds specs
        = (sortedDisplayNames specs).map (fun dn =>
            "console:create-" ++ (lastEnumeratedKernel specs dn).getD "") := by
  have hget : ∀ d, objGet (buildDisplayNameMap specs) d = lastEnumeratedKernel specs d := by
    intro d
    exact objGet_displayNameFold specs [] d
  have hkeysnodup : (objKeys (buildDisplayNameMap specs)).Nodup :=
    nodup_objKeys_displayNameFold specs [] List.nodup_nil
  refine ⟨?_, ?_, ?_, hget, ?_, ?_⟩
  · unfold sortedDisplayNames
    exact (List.perm_insertionSort (fun a b : String => a ≤ b)
      (objKeys (buildDisplayNameMap specs))).nodup_iff.mpr hkeysnodup
  · unfold sortedDisplayNames
    exact List.sorted_insertionSort _ _
  · intro d
    rw [sortedDisplayNames, List.mem_insertionSort]
    have := mem_objKeys_displayNameFold specs [] d
    simpa [buildDisplayNameMap, objKeys] using this
  · unfold buildNotebookCreators
    refine List.map_congr_left ?_
    intro dn _
    rw [hget dn]
  · unfold buildConsoleCommandIds
    refine List.map_congr_left ?_
    intro dn _
    rw [hget dn]
